import Mathlib

/-!
Shallow embedding of the fiber-goth authentication middleware: the session
data model (`adapters` package), the session/protect/begin/complete handlers
(`goth` package), and the CSRF guard (`csrf` package).  Go `time.Time` values
are modelled as integer nanoseconds, `uuid.UUID` as a wrapped natural number,
fallible Go calls as `Except`, and each middleware as a pure function from the
request, the adapter's responses and the current instant to the produced
response outcome together with the trace of observable effects (error-handler
invocations, adapter calls, cookies set, context locals set).
-/

namespace FiberGoth

/-- An instant, as integer nanoseconds since the epoch (models Go `time.Time`). -/
structure Time where
  ns : Int
deriving DecidableEq, Repr

/-- Models Go `time.Time.After`: `t.after u` iff `t` is strictly later than `u`. -/
def Time.after (t u : Time) : Bool := decide (u.ns < t.ns)

/-- Models Go `time.Time.Add` for a duration given in nanoseconds. -/
def Time.add (t : Time) (d : Int) : Time := ⟨t.ns + d⟩

/-- Models `uuid.UUID` as an opaque numeric identity; only equality is used. -/
structure UUID where
  val : Nat
deriving DecidableEq, Repr

/-- The distinct Go `error` values the embedded code creates or inspects.
`recordNotFound` stands for a not-found result from a session lookup
(gorm's record-not-found), `ioFault` for an I/O-class adapter failure; the
four `csrf`-prefixed constructors are the `fiber.Error` values declared in
package csrf (`ErrMissingHeader`, `ErrTokenNotFound`, `ErrMissingSession`,
`ErrGenerateToken`). -/
inductive GoErr where
  | missingProviderName
  | missingSession
  | missingCookie
  | recordNotFound
  | ioFault (msg : String)
  | parseDurationErr (s : String)
  | providerFault (msg : String)
  | csrfMissingHeader
  | csrfTokenNotFound
  | csrfMissingSession
  | csrfGenerateToken
deriving DecidableEq, Repr

/-- Modelled from the spec: the CSRF sub-record embedded in a session — "token
value, independent expiry (shorter TTL than the session)".  The declaring code
(`adapters.GothCsrfToken` with its `HasExpired` and `IsValid` methods) is not
under src/; only its consumer `csrf/csrf.go` is.  Fields follow the composite
literal `adapters.GothCsrfToken{Token: t, ExpiresAt: ...}` in csrf.go. -/
structure GothCsrfToken where
  Token : String
  ExpiresAt : Time
deriving DecidableEq, Repr

/-- Modelled from the spec: the CSRF sub-record "has expired" when the current
instant is no longer strictly before its independent expiry. -/
def GothCsrfToken.HasExpired (t : GothCsrfToken) (now : Time) : Bool :=
  !(t.ExpiresAt.after now)

/-- Modelled from the spec: a submitted value is valid exactly when it equals
the session's stored token value ("if the submitted token does not equal the
session's stored token", reject). -/
def GothCsrfToken.IsValid (t : GothCsrfToken) (submitted : String) : Bool :=
  t.Token == submitted

/-- The fields of `adapters.GothUser` the embedded handlers read. -/
structure GothUser where
  ID : UUID
deriving DecidableEq, Repr

/-- `adapters.GothSession`, with the fields the embedded code reads or writes.
The `CsrfToken` field is modelled from the spec (csrf.go assigns
`session.CsrfToken`; the declaring copy of the adapters package is not under
src/). -/
structure GothSession where
  ID : UUID
  ExpiresAt : Time
  SessionToken : String
  UserID : UUID
  CsrfToken : GothCsrfToken
deriving DecidableEq, Repr

/-- `GothSession.IsValid`: `return s.ExpiresAt.After(time.Now())`, with the
call instant made explicit. -/
def GothSession.IsValid (s : GothSession) (now : Time) : Bool :=
  s.ExpiresAt.after now

/-- Accumulates decimal digit characters into a natural number. -/
def digitsToNat (ds : List Char) : Nat :=
  ds.foldl (fun acc c => acc * 10 + (c.toNat - 48)) 0

/-- The nanosecond value of one Go duration unit suffix, with the remaining
input; longer suffixes are matched first as in Go's `time.ParseDuration`. -/
def unitValue : List Char → Option (Int × List Char)
  | 'n' :: 's' :: rest => some (1, rest)
  | 'u' :: 's' :: rest => some (1000, rest)
  | 'm' :: 's' :: rest => some (1000000, rest)
  | 'm' :: rest => some (60000000000, rest)
  | 's' :: rest => some (1000000000, rest)
  | 'h' :: rest => some (3600000000000, rest)
  | _ => none

/-- Fuelled loop of the duration parser: a sequence of unsigned integer+unit
terms summed in nanoseconds. -/
def parseDurGo (fuel : Nat) (cs : List Char) : Option Int :=
  match fuel with
  | 0 => none
  | Nat.succ fuel =>
    match cs with
    | [] => some 0
    | _ :: _ =>
      let p := cs.span Char.isDigit
      match p.1 with
      | [] => none
      | _ :: _ =>
        match unitValue p.2 with
        | none => none
        | some q =>
          match parseDurGo fuel q.2 with
          | none => none
          | some v => some ((digitsToNat p.1 : Int) * q.1 + v)

/-- Models Go `time.ParseDuration` restricted to the duration forms this
repository uses: a non-empty sequence of unsigned integer+unit terms
(`h`, `m`, `s`, `ms`, `us`, `ns`); anything else is a parse error. -/
def parseDuration (s : String) : Except GoErr Int :=
  if s = "" then Except.error (GoErr.parseDurationErr s)
  else
    match parseDurGo (s.length + 1) s.data with
    | some v => Except.ok v
    | none => Except.error (GoErr.parseDurationErr s)

/-- The fixed alphabet of `goth.charset` (63 characters). -/
def charset : List Char :=
  "0123456789ABCDEFGHIJKLMNOPQRSTUVWXYZabcdefghijklmnopqrstuvwxyz-".data

/-- `generateRandomString(n)`: n bytes, the i-th being `charset[num_i]` for a
random `num_i` below `len(charset)`.  The random draws are abstracted as a
function `randIdx` from position to drawn index (reduced modulo the alphabet
size so the model is total; the code only ever draws in-range indices). -/
def generateRandomString (n : Nat) (randIdx : Nat → Nat) : List Char :=
  (List.range n).map (fun i => charset.getD (randIdx i % charset.length) '0')

/-- The alphabet of `base64.URLEncoding`. -/
def b64urlAlphabet : List Char :=
  "ABCDEFGHIJKLMNOPQRSTUVWXYZabcdefghijklmnopqrstuvwxyz0123456789-_".data

/-- The base64url digit for a 6-bit value. -/
def b64Char (n : Nat) : Char := b64urlAlphabet.getD n 'A'

/-- Models `base64.URLEncoding.EncodeToString` over byte values: standard
base64 with the URL alphabet and `=` padding. -/
def base64urlEncode : List Nat → List Char
  | [] => []
  | [a] => [b64Char (a / 4), b64Char (a % 4 * 16), '=', '=']
  | [a, b] => [b64Char (a / 4), b64Char (a % 4 * 16 + b / 16), b64Char (b % 16 * 4), '=']
  | a :: b :: c :: rest =>
      b64Char (a / 4) :: b64Char (a % 4 * 16 + b / 16) ::
        b64Char (b % 16 * 4 + c / 64) :: b64Char (c % 64) :: base64urlEncode rest

/-- Length of a base64 encoding: four output characters per (started) group of
three input bytes. -/
theorem base64urlEncode_length : (l : List Nat) → (base64urlEncode l).length = (l.length + 2) / 3 * 4
  | [] => rfl
  | [_] => by simp [base64urlEncode]
  | [_, _] => by simp [base64urlEncode]
  | _ :: _ :: _ :: rest => by
      have ih := base64urlEncode_length rest
      simp only [base64urlEncode, List.length_cons, ih]
      omega

/-- Decidable equality for `Except` results, so concrete runs evaluate. -/
instance {ε : Type} {α : Type} [DecidableEq ε] [DecidableEq α] : DecidableEq (Except ε α) :=
  fun a b =>
  match a, b with
  | Except.error x, Except.error y =>
    if h : x = y then isTrue (by rw [h]) else isFalse (fun hc => by cases hc; exact h rfl)
  | Except.error _, Except.ok _ => isFalse (fun hc => by cases hc)
  | Except.ok _, Except.error _ => isFalse (fun hc => by cases hc)
  | Except.ok x, Except.ok y =>
    if h : x = y then isTrue (by rw [h]) else isFalse (fun hc => by cases hc; exact h rfl)

/-- The request data the embedded handlers read from a `fiber.Ctx`. -/
structure Request where
  method : String
  path : String
  cookies : List (String × String)
  query : List (String × String)
  headers : List (String × String)
  params : List (String × String)

/-- Association-list lookup returning the empty string when absent, as fiber's
`Cookies`/`Query`/`Get`/`Params` accessors do. -/
def getAssoc (l : List (String × String)) (k : String) : String :=
  match l.find? (fun p => p.1 == k) with
  | some p => p.2
  | none => ""

/-- `c.Cookies(name)`. -/
def Request.cookieValue (c : Request) (name : String) : String := getAssoc c.cookies name

/-- `c.Query(name)`. -/
def Request.queryValue (c : Request) (name : String) : String := getAssoc c.query name

/-- `c.Get(name)` (request header). -/
def Request.headerValue (c : Request) (name : String) : String := getAssoc c.headers name

/-- `c.Params(name)` (route parameter). -/
def Request.paramValue (c : Request) (name : String) : String := getAssoc c.params name

/-- The context-local keys used by the goth and csrf packages (distinct Go
`contextKey` types; merged into one enumeration here). -/
inductive LKey where
  | provider
  | session
  | token
  | userID
  | csrfToken
deriving DecidableEq, Repr

/-- A dynamically typed value stored via `c.Locals`; Go type assertions on it
are modelled by matching the constructor. -/
inductive LocalVal where
  | str (s : String)
  | uuid (u : UUID)
  | session (s : GothSession)
  | csrf (t : GothCsrfToken)
deriving DecidableEq, Repr

/-- The cookie attributes the handlers set (`fasthttp.Cookie`). -/
structure Cookie where
  key : String
  value : String
  httpOnly : Bool
  sameSite : Nat
  expires : Time
  path : String
deriving DecidableEq, Repr

/-- `fasthttp.CookieSameSiteLaxMode`. -/
def cookieSameSiteLaxMode : Nat := 2

/-- Observable effects a handler performs before producing its outcome. -/
inductive Event where
  | errorHandlerCalled (e : Option GoErr)
  | getSessionCalled (token : String)
  | refreshSessionCalled (s : GothSession)
  | createSessionCalled (userID : UUID) (expires : Time)
  | updateSessionCalled (s : GothSession)
  | deleteSessionCalled (token : String)
  | providerBeginAuth (st : String)
  | cookieSet (c : Cookie)
deriving DecidableEq, Repr

/-- How a handler terminates: forward to the next handler, HTTP redirect,
return of the configured error handler's response, a directly returned error
(BeginAuth), or the configured response filter. -/
inductive Outcome where
  | next
  | redirect (url : String) (status : Nat)
  | errorHandled (e : GoErr)
  | errorReturned (e : GoErr)
  | filtered
deriving DecidableEq, Repr

/-- A handler run: its effect trace, outcome, and the context locals it set. -/
structure HandlerResult where
  events : List Event
  outcome : Outcome
  locals : List (LKey × LocalVal)
deriving DecidableEq, Repr

/-- The fields of `goth.Config` the embedded handlers read. -/
structure Config where
  Next : Option (Request → Bool)
  Expiry : String
  CookieName : String
  CookieSameSite : Nat
  CookiePath : String
  LoginURL : String
  LogoutURL : String
  CallbackURL : String
  Extractor : Option (Request → Except GoErr String)

/-- `goth.TokenFromCookie`: extracts the token from the named cookie, failing
with `ErrMissingCookie` when absent. -/
def TokenFromCookie (param : String) (c : Request) : Except GoErr String :=
  let token := c.cookieValue param
  if token == "" then Except.error GoErr.missingCookie else Except.ok token

/-- `goth.ConfigDefault` (the modelled fields). -/
def ConfigDefault : Config where
  Next := none
  Expiry := "7h"
  CookieName := "fiber_goth.session"
  CookieSameSite := cookieSameSiteLaxMode
  CookiePath := ""
  LoginURL := "/login"
  LogoutURL := "/logout"
  CallbackURL := "/auth"
  Extractor := some (TokenFromCookie "fiber_goth.session")

/-- `goth.configDefault`: the default config when no config is given, else the
given config with each unset modelled field replaced by its default. -/
def configDefault : List Config → Config
  | [] => ConfigDefault
  | cfg :: _ =>
    { cfg with
      Extractor := if cfg.Extractor.isNone then ConfigDefault.Extractor else cfg.Extractor
      Expiry := if cfg.Expiry = "" then ConfigDefault.Expiry else cfg.Expiry
      CookieName := if cfg.CookieName = "" then ConfigDefault.CookieName else cfg.CookieName
      CookieSameSite := if cfg.CookieSameSite = 0 then ConfigDefault.CookieSameSite else cfg.CookieSameSite
      LoginURL := if cfg.LoginURL = "" then ConfigDefault.LoginURL else cfg.LoginURL
      LogoutURL := if cfg.LogoutURL = "" then ConfigDefault.LogoutURL else cfg.LogoutURL
      CallbackURL := if cfg.CallbackURL = "" then ConfigDefault.CallbackURL else cfg.CallbackURL }

/-- The configured extractor (after defaulting it is always set; the `none`
branch repeats the default, mirroring that Go would have filled it in). -/
def Config.extract (cfg : Config) (c : Request) : Except GoErr String :=
  match cfg.Extractor with
  | some f => f c
  | none => TokenFromCookie ConfigDefault.CookieName c

/-- `cfg.Next != nil && cfg.Next(c)`. -/
def nextSkip (n : Option (Request → Bool)) (c : Request) : Bool :=
  match n with
  | some f => f c
  | none => false

/-- First-match lookup in the request context locals. -/
def lookupLocal (locals : List (LKey × LocalVal)) (k : LKey) : Option LocalVal :=
  match locals.find? (fun p => p.1 == k) with
  | some p => some p.2
  | none => none

/-- `goth.TokenFromContext`: type-asserts the value under the token key to
`string`, returning the zero value `""` when the assertion fails. -/
def TokenFromContext (locals : List (LKey × LocalVal)) : String :=
  match lookupLocal locals LKey.token with
  | some (LocalVal.str s) => s
  | _ => ""

/-- `goth.SessionFromContext`: type-asserts the value under the session key to
`adapters.GothSession`, failing with `ErrMissingSession`. -/
def SessionFromContext (locals : List (LKey × LocalVal)) : Except GoErr GothSession :=
  match lookupLocal locals LKey.session with
  | some (LocalVal.session s) => Except.ok s
  | _ => Except.error GoErr.missingSession

/-- The expiry slide performed by the session-refreshing handlers:
`expires := time.Now().Add(duration); session.ExpiresAt = expires`. -/
def slideExpiry (session : GothSession) (now : Time) (duration : Int) : GothSession :=
  { session with ExpiresAt := now.add duration }

/-- The storage adapter, as the response functions of its session methods. -/
structure Adapter where
  GetSession : String → Except GoErr GothSession
  RefreshSession : GothSession → Except GoErr GothSession
  UpdateSession : GothSession → Except GoErr GothSession
  CreateSession : UUID → Time → Except GoErr GothSession
  DeleteSession : String → Except GoErr Unit

/-- `goth.NewProtectMiddleware`: prefix skips, cookie extraction (missing
cookie redirects to login, other extractor errors go to the error handler),
session lookup (any failure goes to the error handler), validity check
(invalid redirects to login), expiry slide via `RefreshSession`, cookie
re-issue, and context locals for downstream handlers. -/
def NewProtectMiddleware (config : List Config) (adapter : Adapter) (c : Request) (now : Time) :
    HandlerResult :=
  let cfg := configDefault config
  if nextSkip cfg.Next c then ⟨[], Outcome.next, []⟩
  else if cfg.LoginURL.isPrefixOf c.path then ⟨[], Outcome.next, []⟩
  else if cfg.LogoutURL.isPrefixOf c.path then ⟨[], Outcome.next, []⟩
  else if cfg.CallbackURL.isPrefixOf c.path then ⟨[], Outcome.next, []⟩
  else
    match cfg.extract c with
    | Except.error e =>
      if e == GoErr.missingCookie then ⟨[], Outcome.redirect cfg.LoginURL 307, []⟩
      else ⟨[Event.errorHandlerCalled (some e)], Outcome.errorHandled e, []⟩
    | Except.ok token =>
      match adapter.GetSession token with
      | Except.error e =>
          ⟨[Event.getSessionCalled token, Event.errorHandlerCalled (some e)], Outcome.errorHandled e, []⟩
      | Except.ok session =>
        if !(session.IsValid now) then
          ⟨[Event.getSessionCalled token], Outcome.redirect cfg.LoginURL 307, []⟩
        else
          match parseDuration cfg.Expiry with
          | Except.error e =>
              ⟨[Event.getSessionCalled token, Event.errorHandlerCalled (some e)],
                Outcome.errorHandled e, []⟩
          | Except.ok duration =>
            let expires := now.add duration
            let session1 := slideExpiry session now duration
            match adapter.RefreshSession session1 with
            | Except.error e =>
                ⟨[Event.getSessionCalled token, Event.refreshSessionCalled session1,
                    Event.errorHandlerCalled (some e)], Outcome.errorHandled e, []⟩
            | Except.ok session2 =>
              ⟨[Event.getSessionCalled token, Event.refreshSessionCalled session1,
                  Event.cookieSet ⟨cfg.CookieName, session2.SessionToken, true, cfg.CookieSameSite,
                    expires, cfg.CookiePath⟩],
                Outcome.next,
                [(LKey.token, LocalVal.uuid session2.ID),
                 (LKey.session, LocalVal.session session2),
                 (LKey.userID, LocalVal.uuid session2.UserID)]⟩

/-- `goth.SessionHandler.New`: like the protect middleware but reading the
cookie directly and reporting a missing cookie or lookup failure to the error
handler.  When `session.IsValid()` is false the error handler is called (with
the nil error of the preceding successful lookup) but its result is discarded
and processing continues. -/
def sessionHandlerNew (cfg : Config) (adapter : Adapter) (c : Request) (now : Time) :
    HandlerResult :=
  if nextSkip cfg.Next c then ⟨[], Outcome.next, []⟩
  else
    let cookie := c.cookieValue cfg.CookieName
    if cookie == "" then
      ⟨[Event.errorHandlerCalled (some GoErr.missingCookie)],
        Outcome.errorHandled GoErr.missingCookie, []⟩
    else
      match adapter.GetSession cookie with
      | Except.error e =>
          ⟨[Event.getSessionCalled cookie, Event.errorHandlerCalled (some e)],
            Outcome.errorHandled e, []⟩
      | Except.ok session =>
        let ev0 := if session.IsValid now then [Event.getSessionCalled cookie]
                   else [Event.getSessionCalled cookie, Event.errorHandlerCalled none]
        match parseDuration cfg.Expiry with
        | Except.error e =>
            ⟨ev0 ++ [Event.errorHandlerCalled (some e)], Outcome.errorHandled e, []⟩
        | Except.ok duration =>
          let expires := now.add duration
          let session1 := slideExpiry session now duration
          match adapter.RefreshSession session1 with
          | Except.error e =>
              ⟨ev0 ++ [Event.refreshSessionCalled session1, Event.errorHandlerCalled (some e)],
                Outcome.errorHandled e, []⟩
          | Except.ok session2 =>
              ⟨ev0 ++ [Event.refreshSessionCalled session1,
                  Event.cookieSet ⟨cfg.CookieName, session2.SessionToken, true, cfg.CookieSameSite,
                    expires, cfg.CookiePath⟩],
                Outcome.next, []⟩

/-- The provider capability as seen by the orchestrator handlers for one
request: the registry lookup (`providers.GetProvider`), the redirect URL a
`BeginAuth` intent resolves to for a given state, and the `CompleteAuth`
result. -/
structure ProviderOps where
  lookup : String → Except GoErr Unit
  beginAuthURL : String → Except GoErr String
  completeAuth : Except GoErr GothUser

/-- `goth.stateFromContext`: reuse a non-empty `state` query parameter
verbatim, else base64url-encode 64 random characters drawn from the fixed
alphabet. -/
def stateFromContext (c : Request) (randIdx : Nat → Nat) : String :=
  let st := c.queryValue "state"
  if st.length > 0 then st
  else String.mk (base64urlEncode ((generateRandomString 64 randIdx).map Char.toNat))

/-- `goth.BeginAuthHandler.New`: failures are returned directly (not routed
through the error handler); success is a 307 redirect to the provider's
authorization URL. -/
def beginAuthHandlerNew (cfg : Config) (prov : ProviderOps) (c : Request) (randIdx : Nat → Nat) :
    HandlerResult :=
  if nextSkip cfg.Next c then ⟨[], Outcome.next, []⟩
  else
    let p := c.paramValue "provider"
    if p == "" then ⟨[], Outcome.errorReturned GoErr.missingProviderName, []⟩
    else
      match prov.lookup p with
      | Except.error e => ⟨[], Outcome.errorReturned e, []⟩
      | Except.ok _ =>
        let st := stateFromContext c randIdx
        match prov.beginAuthURL st with
        | Except.error e => ⟨[Event.providerBeginAuth st], Outcome.errorReturned e, []⟩
        | Except.ok authURL =>
            ⟨[Event.providerBeginAuth st], Outcome.redirect authURL 307, []⟩

/-- `goth.CompleteAuthCompleteHandler.New`: every step failure is routed to
the configured error handler; only after `CreateSession` succeeds is the
HTTP-only session cookie set (SameSite Lax and path "/" hardcoded), and the
outcome is the configured response filter. -/
def completeAuthHandlerNew (cfg : Config) (prov : ProviderOps) (adapter : Adapter) (c : Request)
    (now : Time) : HandlerResult :=
  if nextSkip cfg.Next c then ⟨[], Outcome.next, []⟩
  else
    let p := c.paramValue "provider"
    if p == "" then
      ⟨[Event.errorHandlerCalled (some GoErr.missingProviderName)],
        Outcome.errorHandled GoErr.missingProviderName, []⟩
    else
      match prov.lookup p with
      | Except.error e =>
          ⟨[Event.errorHandlerCalled (some e)], Outcome.errorHandled e, []⟩
      | Except.ok _ =>
        match prov.completeAuth with
        | Except.error e =>
            ⟨[Event.errorHandlerCalled (some e)], Outcome.errorHandled e, []⟩
        | Except.ok user =>
          match parseDuration cfg.Expiry with
          | Except.error e =>
              ⟨[Event.errorHandlerCalled (some e)], Outcome.errorHandled e, []⟩
          | Except.ok duration =>
            let expires := now.add duration
            match adapter.CreateSession user.ID expires with
            | Except.error e =>
                ⟨[Event.createSessionCalled user.ID expires, Event.errorHandlerCalled (some e)],
                  Outcome.errorHandled e, []⟩
            | Except.ok session =>
                ⟨[Event.createSessionCalled user.ID expires,
                    Event.cookieSet ⟨cfg.CookieName, session.SessionToken, true,
                      cookieSameSiteLaxMode, expires, "/"⟩],
                  Outcome.filtered, []⟩

/-- The fields of `csrf.Config` the embedded guard reads.  `IgnoredMethods`
is optional to model Go's nil-slice defaulting. -/
structure CsrfConfig where
  Next : Option (Request → Bool)
  IgnoredMethods : Option (List String)
  IdleTimeout : Int
  Extractor : Option (Request → Except GoErr String)

/-- `csrf.HeaderName`. -/
def csrfHeaderName : String := "X-Csrf-Token"

/-- `csrf.FromHeader`: extracts the token from the named request header,
failing with `ErrMissingHeader` when empty. -/
def FromHeader (param : String) (c : Request) : Except GoErr String :=
  let token := c.headerValue param
  if token == "" then Except.error GoErr.csrfMissingHeader else Except.ok token

/-- `30 * time.Minute` in nanoseconds. -/
def csrfIdleTimeoutDefault : Int := 1800000000000

/-- `csrf.ConfigDefault.IgnoredMethods`. -/
def csrfIgnoredMethodsDefault : List String := ["GET", "HEAD", "OPTIONS", "TRACE"]

/-- `csrf.ConfigDefault` (the modelled fields). -/
def CsrfConfigDefault : CsrfConfig where
  Next := none
  IgnoredMethods := some csrfIgnoredMethodsDefault
  IdleTimeout := csrfIdleTimeoutDefault
  Extractor := some (FromHeader csrfHeaderName)

/-- `csrf.configDefault`. -/
def csrfConfigDefault : List CsrfConfig → CsrfConfig
  | [] => CsrfConfigDefault
  | cfg :: _ =>
    { cfg with
      IdleTimeout := if cfg.IdleTimeout ≤ 0 then CsrfConfigDefault.IdleTimeout else cfg.IdleTimeout
      Extractor := if cfg.Extractor.isNone then CsrfConfigDefault.Extractor else cfg.Extractor
      IgnoredMethods :=
        if cfg.IgnoredMethods.isNone then CsrfConfigDefault.IgnoredMethods else cfg.IgnoredMethods }

/-- The configured csrf extractor (after defaulting it is always set). -/
def CsrfConfig.extract (cfg : CsrfConfig) (c : Request) : Except GoErr String :=
  match cfg.Extractor with
  | some f => f c
  | none => FromHeader csrfHeaderName c

/-- The configured ignored-methods list (the nil slice iterates as empty). -/
def CsrfConfig.ignoredList (cfg : CsrfConfig) : List String :=
  cfg.IgnoredMethods.getD []

/-- `csrf.New`: session from the request context first (its absence goes to
the error handler with `ErrMissingSession`), then the ignored-methods skip,
then token extraction and validation — extractor failure, empty token,
expired sub-record and mismatched token all go to the error handler with
`ErrTokenNotFound` — then rotation: a fresh token with a new expiry is written
into the session and persisted via `UpdateSession`, and the new sub-record is
stored in the context. -/
def csrfNew (config : List CsrfConfig) (adapter : Adapter) (c : Request)
    (locals : List (LKey × LocalVal)) (newToken : Except GoErr String) (now : Time) :
    HandlerResult :=
  let cfg := csrfConfigDefault config
  if nextSkip cfg.Next c then ⟨[], Outcome.next, locals⟩
  else
    match SessionFromContext locals with
    | Except.error _ =>
        ⟨[Event.errorHandlerCalled (some GoErr.csrfMissingSession)],
          Outcome.errorHandled GoErr.csrfMissingSession, locals⟩
    | Except.ok session =>
      if cfg.ignoredList.any (fun method => method == c.method) then ⟨[], Outcome.next, locals⟩
      else
        match cfg.extract c with
        | Except.error _ =>
            ⟨[Event.errorHandlerCalled (some GoErr.csrfTokenNotFound)],
              Outcome.errorHandled GoErr.csrfTokenNotFound, locals⟩
        | Except.ok token =>
          if token == "" then
            ⟨[Event.errorHandlerCalled (some GoErr.csrfTokenNotFound)],
              Outcome.errorHandled GoErr.csrfTokenNotFound, locals⟩
          else if session.CsrfToken.HasExpired now then
            ⟨[Event.errorHandlerCalled (some GoErr.csrfTokenNotFound)],
              Outcome.errorHandled GoErr.csrfTokenNotFound, locals⟩
          else if !(session.CsrfToken.IsValid token) then
            ⟨[Event.errorHandlerCalled (some GoErr.csrfTokenNotFound)],
              Outcome.errorHandled GoErr.csrfTokenNotFound, locals⟩
          else
            match newToken with
            | Except.error _ =>
                ⟨[Event.errorHandlerCalled (some GoErr.csrfGenerateToken)],
                  Outcome.errorHandled GoErr.csrfGenerateToken, locals⟩
            | Except.ok t =>
              let session1 := { session with CsrfToken := ⟨t, now.add cfg.IdleTimeout⟩ }
              match adapter.UpdateSession session1 with
              | Except.error e =>
                  ⟨[Event.updateSessionCalled session1, Event.errorHandlerCalled (some e)],
                    Outcome.errorHandled e, locals⟩
              | Except.ok session2 =>
                  ⟨[Event.updateSessionCalled session1], Outcome.next,
                    (LKey.csrfToken, LocalVal.csrf session2.CsrfToken) :: locals⟩

/-- A one-session in-memory adapter used to instantiate theorems: lookup by
the stored session's token, refresh and update report the written value back,
create mints a fresh session with the requested expiry. -/
def storeAdapter (stored : GothSession) : Adapter where
  GetSession := fun token =>
    if token == stored.SessionToken then Except.ok stored
    else Except.error GoErr.recordNotFound
  RefreshSession := fun s => Except.ok s
  UpdateSession := fun s => Except.ok s
  CreateSession := fun uid expires =>
    Except.ok { ID := ⟨1⟩, ExpiresAt := expires, SessionToken := "session-token-1",
                UserID := uid, CsrfToken := ⟨"", ⟨0⟩⟩ }
  DeleteSession := fun _ => Except.ok ()

/-- A config value with every modelled field unset, so `configDefault` fills
in every default. -/
def cfgEmpty : Config := ⟨none, "", "", 0, "", "", "", "", none⟩

/-- A live session fixture: expires at 1000000, CSRF record `"csrf-a"`
expiring at 900000. -/
def sessA : GothSession := ⟨⟨7⟩, ⟨1000000⟩, "tokA", ⟨9⟩, ⟨"csrf-a", ⟨900000⟩⟩⟩

/-- An expired session fixture (expiry 50). -/
def sessExpired : GothSession := ⟨⟨7⟩, ⟨50⟩, "tokA", ⟨9⟩, ⟨"csrf-a", ⟨40⟩⟩⟩

/-- A request to a protected path carrying the session cookie. -/
def reqApp : Request := ⟨"POST", "/app", [("fiber_goth.session", "tokA")], [], [], []⟩

/-- C9: for every session value and every evaluation instant, `IsValid`
returns true iff the instant is strictly before the session's `ExpiresAt`;
at the exact boundary (evaluating at `ExpiresAt` itself) the session is
invalid. -/
theorem C9_isValid_iff_now_lt_expiresAt (s : GothSession) (now : Time) :
    (s.IsValid now = true ↔ now.ns < s.ExpiresAt.ns) ∧ s.IsValid s.ExpiresAt = false := by
  constructor
  · simp [GothSession.IsValid, Time.after]
  · simp [GothSession.IsValid, Time.after]

/-- C3: when the protect middleware extracts a session that fails `IsValid`,
it returns a 307 redirect to the configured `LoginURL`; the complete effect
trace is the single session lookup — no `RefreshSession`, no cookie re-issue —
no context locals are set, and the outcome is not `next`, so the downstream
handler is never invoked. -/
theorem C3_expired_session_redirects_login
    (cfg : Config) (adapter : Adapter) (c : Request) (now : Time) (token : String)
    (session : GothSession)
    (hskip : nextSkip (configDefault [cfg]).Next c = false)
    (hlogin : (configDefault [cfg]).LoginURL.isPrefixOf c.path = false)
    (hlogout : (configDefault [cfg]).LogoutURL.isPrefixOf c.path = false)
    (hcb : (configDefault [cfg]).CallbackURL.isPrefixOf c.path = false)
    (hex : (configDefault [cfg]).extract c = Except.ok token)
    (hget : adapter.GetSession token = Except.ok session)
    (hval : session.IsValid now = false) :
    NewProtectMiddleware [cfg] adapter c now =
      ⟨[Event.getSessionCalled token],
        Outcome.redirect (configDefault [cfg]).LoginURL 307, []⟩ := by
  simp [NewProtectMiddleware, hskip, hlogin, hlogout, hcb, hex, hget, hval]

/-- Witness for C3 at a concrete expired session. -/
theorem C3_witness :
    NewProtectMiddleware [cfgEmpty] (storeAdapter sessExpired) reqApp ⟨100⟩ =
      ⟨[Event.getSessionCalled "tokA"], Outcome.redirect "/login" 307, []⟩ :=
  C3_expired_session_redirects_login cfgEmpty (storeAdapter sessExpired) reqApp ⟨100⟩ "tokA"
    sessExpired (by decide) (by decide) (by decide) (by decide) (by decide) (by decide) (by decide)

/-- C4: in the reference `SessionHandler`, when the extracted session fails
`IsValid` the error handler is invoked (with the nil error of the preceding
successful lookup) but its result is discarded: the run still slides the
expiry, calls `RefreshSession`, re-issues the cookie with the slid expiry and
forwards to the next handler, exactly as for a valid session. -/
theorem C4_sessionHandler_expired_continues
    (cfg : Config) (adapter : Adapter) (c : Request) (now : Time)
    (session session2 : GothSession) (duration : Int)
    (hskip : nextSkip cfg.Next c = false)
    (hne : (c.cookieValue cfg.CookieName == "") = false)
    (hget : adapter.GetSession (c.cookieValue cfg.CookieName) = Except.ok session)
    (hval : session.IsValid now = false)
    (hdur : parseDuration cfg.Expiry = Except.ok duration)
    (href : adapter.RefreshSession (slideExpiry session now duration) = Except.ok session2) :
    sessionHandlerNew cfg adapter c now =
      ⟨[Event.getSessionCalled (c.cookieValue cfg.CookieName), Event.errorHandlerCalled none,
        Event.refreshSessionCalled (slideExpiry session now duration),
        Event.cookieSet ⟨cfg.CookieName, session2.SessionToken, true, cfg.CookieSameSite,
          now.add duration, cfg.CookiePath⟩],
        Outcome.next, []⟩ := by
  simp [sessionHandlerNew, hskip, hne, hget, hval, hdur, href]

/-- Witness for C4: the expired session slides to 100 + 7h and the handler
still re-issues the cookie and forwards. -/
theorem C4_witness :
    sessionHandlerNew (configDefault []) (storeAdapter sessExpired) reqApp ⟨100⟩ =
      ⟨[Event.getSessionCalled "tokA", Event.errorHandlerCalled none,
        Event.refreshSessionCalled (slideExpiry sessExpired ⟨100⟩ 25200000000000),
        Event.cookieSet ⟨"fiber_goth.session", "tokA", true, cookieSameSiteLaxMode,
          ⟨25200000000100⟩, ""⟩],
        Outcome.next, []⟩ :=
  C4_sessionHandler_expired_continues (configDefault []) (storeAdapter sessExpired) reqApp ⟨100⟩
    sessExpired (slideExpiry sessExpired ⟨100⟩ 25200000000000) 25200000000000
    (by decide) (by decide) (by decide) (by decide) (by decide) (by decide)

/-- C10: after every successful validation by the protect middleware, the
token context key holds the session's `ID` as a `uuid.UUID` value, while
`TokenFromContext` type-asserts that value to `string`; the assertion fails
and the zero value `""` is returned. -/
theorem C10_tokenFromContext_empty_after_protect
    (cfg : Config) (adapter : Adapter) (c : Request) (now : Time) (token : String)
    (session session2 : GothSession) (duration : Int)
    (hskip : nextSkip (configDefault [cfg]).Next c = false)
    (hlogin : (configDefault [cfg]).LoginURL.isPrefixOf c.path = false)
    (hlogout : (configDefault [cfg]).LogoutURL.isPrefixOf c.path = false)
    (hcb : (configDefault [cfg]).CallbackURL.isPrefixOf c.path = false)
    (hex : (configDefault [cfg]).extract c = Except.ok token)
    (hget : adapter.GetSession token = Except.ok session)
    (hval : session.IsValid now = true)
    (hdur : parseDuration (configDefault [cfg]).Expiry = Except.ok duration)
    (href : adapter.RefreshSession (slideExpiry session now duration) = Except.ok session2) :
    lookupLocal (NewProtectMiddleware [cfg] adapter c now).locals LKey.token =
      some (LocalVal.uuid session2.ID) ∧
    TokenFromContext (NewProtectMiddleware [cfg] adapter c now).locals = "" := by
  have hres : (NewProtectMiddleware [cfg] adapter c now).locals =
      [(LKey.token, LocalVal.uuid session2.ID),
       (LKey.session, LocalVal.session session2),
       (LKey.userID, LocalVal.uuid session2.UserID)] := by
    simp [NewProtectMiddleware, hskip, hlogin, hlogout, hcb, hex, hget, hval, hdur, href]
  rw [hres]
  exact ⟨rfl, rfl⟩

/-- Witness for C10 on a live concrete session. -/
theorem C10_witness :
    lookupLocal (NewProtectMiddleware [cfgEmpty] (storeAdapter sessA) reqApp ⟨100⟩).locals
        LKey.token =
      some (LocalVal.uuid (UUID.mk 7)) ∧
    TokenFromContext (NewProtectMiddleware [cfgEmpty] (storeAdapter sessA) reqApp ⟨100⟩).locals =
      "" :=
  C10_tokenFromContext_empty_after_protect cfgEmpty (storeAdapter sessA) reqApp ⟨100⟩ "tokA"
    sessA (slideExpiry sessA ⟨100⟩ 25200000000000) 25200000000000
    (by decide) (by decide) (by decide) (by decide) (by decide) (by decide) (by decide) (by decide)
    (by decide)

/-- A protect-middleware config whose session TTL (`1m`) is shorter than the
stored session's remaining lifetime. -/
def cfgShortTTL : Config := { cfgEmpty with Expiry := "1m" }

/-- A session whose stored expiry lies far in the future. -/
def sessLongLived : GothSession := ⟨⟨7⟩, ⟨1000000000000000000⟩, "tokA", ⟨9⟩, ⟨"csrf-a", ⟨0⟩⟩⟩

/-- A session whose expiry was issued as `issued + ttl` with `issued` 100,
ttl 60. -/
def sessSlid : GothSession := ⟨⟨7⟩, ⟨160⟩, "tokA", ⟨9⟩, ⟨"csrf-a", ⟨0⟩⟩⟩

/-- C5 counterexample: a valid session whose stored expiry exceeds
`now + sessionTTL` is slid backwards by the protect middleware: the session
handed to `RefreshSession` carries expiry `now + ttl` (60000000000), strictly
earlier than the previous expiry — the slide is not monotone as claimed. -/
theorem C5_counterexample_slide_shrinks_expiry :
    sessLongLived.IsValid ⟨0⟩ = true ∧
    (NewProtectMiddleware [cfgShortTTL] (storeAdapter sessLongLived) reqApp ⟨0⟩).events.contains
      (Event.refreshSessionCalled (slideExpiry sessLongLived ⟨0⟩ 60000000000)) = true ∧
    (slideExpiry sessLongLived ⟨0⟩ 60000000000).ExpiresAt.ns < sessLongLived.ExpiresAt.ns := by
  decide

/-- C5 (amended): the slide writes exactly `now + ttl`; it is monotonically
non-decreasing provided the previous expiry was itself issued as
`issued + ttl` for the same TTL at an instant `issued` no later than `now`
(monotone clock, one TTL) — without that proviso the slide can move the
expiry backwards. -/
theorem C5_slide_monotone_when_prev_within_ttl
    (session : GothSession) (now issued : Time) (ttl : Int)
    (hprev : session.ExpiresAt = issued.add ttl)
    (hclock : issued.ns ≤ now.ns) :
    session.ExpiresAt.ns ≤ (slideExpiry session now ttl).ExpiresAt.ns := by
  simp [slideExpiry, Time.add, hprev]
  omega

/-- Witness for the amended C5 at `issued` 100, `ttl` 60, `now` 150. -/
theorem C5_witness :
    sessSlid.ExpiresAt.ns ≤ (slideExpiry sessSlid ⟨150⟩ 60).ExpiresAt.ns :=
  C5_slide_monotone_when_prev_within_ttl sessSlid ⟨150⟩ ⟨100⟩ 60 (by decide) (by decide)

/-- A request whose session cookie matches no stored session. -/
def reqWrongCookie : Request := ⟨"POST", "/app", [("fiber_goth.session", "bogus")], [], [], []⟩

/-- A request carrying no session cookie at all. -/
def reqNoCookie : Request := ⟨"POST", "/app", [], [], [], []⟩

/-- An adapter whose `GetSession` fails with an I/O-class error. -/
def ioFailAdapter : Adapter :=
  { storeAdapter sessA with GetSession := fun _ => Except.error (GoErr.ioFault "db down") }

/-- C7 counterexample: a not-found `GetSession` result is routed to the
configured error handler, not redirected to the login route — the protect
middleware does not treat it as a soft failure. -/
theorem C7_counterexample_notfound_reaches_error_handler :
    NewProtectMiddleware [cfgEmpty] (storeAdapter sessA) reqWrongCookie ⟨0⟩ =
      ⟨[Event.getSessionCalled "bogus", Event.errorHandlerCalled (some GoErr.recordNotFound)],
        Outcome.errorHandled GoErr.recordNotFound, []⟩ := by
  decide

/-- C7 (amended): the protect middleware conflates the two `GetSession`
outcomes: every lookup failure — not-found and I/O-class alike — is routed to
the configured error handler with the adapter's error; the only soft failure
resolving to a login redirect is a missing-cookie extractor failure. -/
theorem C7_getSession_failures_conflated :
    (∀ (cfg : Config) (adapter : Adapter) (c : Request) (now : Time) (token : String) (e : GoErr),
      nextSkip (configDefault [cfg]).Next c = false →
      (configDefault [cfg]).LoginURL.isPrefixOf c.path = false →
      (configDefault [cfg]).LogoutURL.isPrefixOf c.path = false →
      (configDefault [cfg]).CallbackURL.isPrefixOf c.path = false →
      (configDefault [cfg]).extract c = Except.ok token →
      adapter.GetSession token = Except.error e →
      NewProtectMiddleware [cfg] adapter c now =
        ⟨[Event.getSessionCalled token, Event.errorHandlerCalled (some e)],
          Outcome.errorHandled e, []⟩) ∧
    (∀ (cfg : Config) (adapter : Adapter) (c : Request) (now : Time),
      nextSkip (configDefault [cfg]).Next c = false →
      (configDefault [cfg]).LoginURL.isPrefixOf c.path = false →
      (configDefault [cfg]).LogoutURL.isPrefixOf c.path = false →
      (configDefault [cfg]).CallbackURL.isPrefixOf c.path = false →
      (configDefault [cfg]).extract c = Except.error GoErr.missingCookie →
      NewProtectMiddleware [cfg] adapter c now =
        ⟨[], Outcome.redirect (configDefault [cfg]).LoginURL 307, []⟩) := by
  constructor
  · intro cfg adapter c now token e hskip hlogin hlogout hcb hex hget
    simp [NewProtectMiddleware, hskip, hlogin, hlogout, hcb, hex, hget]
  · intro cfg adapter c now hskip hlogin hlogout hcb hex
    simp [NewProtectMiddleware, hskip, hlogin, hlogout, hcb, hex]

/-- Witness for the amended C7: a not-found failure and an I/O failure both
reach the error handler, and only the missing cookie redirects. -/
theorem C7_witness :
    NewProtectMiddleware [cfgEmpty] (storeAdapter sessA) reqWrongCookie ⟨5⟩ =
      ⟨[Event.getSessionCalled "bogus", Event.errorHandlerCalled (some GoErr.recordNotFound)],
        Outcome.errorHandled GoErr.recordNotFound, []⟩ ∧
    NewProtectMiddleware [cfgEmpty] ioFailAdapter reqApp ⟨5⟩ =
      ⟨[Event.getSessionCalled "tokA",
          Event.errorHandlerCalled (some (GoErr.ioFault "db down"))],
        Outcome.errorHandled (GoErr.ioFault "db down"), []⟩ ∧
    NewProtectMiddleware [cfgEmpty] (storeAdapter sessA) reqNoCookie ⟨5⟩ =
      ⟨[], Outcome.redirect "/login" 307, []⟩ :=
  ⟨C7_getSession_failures_conflated.1 cfgEmpty (storeAdapter sessA) reqWrongCookie ⟨5⟩ "bogus"
      GoErr.recordNotFound (by decide) (by decide) (by decide) (by decide) (by decide) (by decide),
   C7_getSession_failures_conflated.1 cfgEmpty ioFailAdapter reqApp ⟨5⟩ "tokA"
      (GoErr.ioFault "db down") (by decide) (by decide) (by decide) (by decide) (by decide)
      (by decide),
   C7_getSession_failures_conflated.2 cfgEmpty (storeAdapter sessA) reqNoCookie ⟨5⟩
      (by decide) (by decide) (by decide) (by decide) (by decide)⟩

/-- A GET request to a protected path with no token header. -/
def reqGetApp : Request := ⟨"GET", "/app", [], [], [], []⟩

/-- C2 counterexample: a GET request with no session in the request context is
rejected by the CSRF guard with `ErrMissingSession` through the error handler —
the session lookup runs before the ignored-methods skip, so the skip never
fires. -/
theorem C2_counterexample_get_without_session_fails :
    csrfNew [] (storeAdapter sessA) reqGetApp [] (Except.ok "csrf-b") ⟨0⟩ =
      ⟨[Event.errorHandlerCalled (some GoErr.csrfMissingSession)],
        Outcome.errorHandled GoErr.csrfMissingSession, []⟩ := by
  decide

/-- C2 (amended): the ignored-methods skip (default GET, HEAD, OPTIONS,
TRACE) is evaluated only after the session lookup: a request whose method is
in the allow-list and whose context holds a session forwards to the next
handler with no token extraction, validation or adapter call, while any
request — a GET included — without a session in context fails with
`ErrMissingSession` via the error handler. -/
theorem C2_ignored_methods_after_session_lookup :
    (∀ (config : List CsrfConfig) (adapter : Adapter) (c : Request)
        (locals : List (LKey × LocalVal)) (s : GothSession)
        (newToken : Except GoErr String) (now : Time),
      nextSkip (csrfConfigDefault config).Next c = false →
      SessionFromContext locals = Except.ok s →
      ((csrfConfigDefault config).ignoredList.any (fun m => m == c.method)) = true →
      csrfNew config adapter c locals newToken now = ⟨[], Outcome.next, locals⟩) ∧
    (∀ (config : List CsrfConfig) (adapter : Adapter) (c : Request)
        (locals : List (LKey × LocalVal)) (newToken : Except GoErr String) (now : Time),
      nextSkip (csrfConfigDefault config).Next c = false →
      SessionFromContext locals = Except.error GoErr.missingSession →
      csrfNew config adapter c locals newToken now =
        ⟨[Event.errorHandlerCalled (some GoErr.csrfMissingSession)],
          Outcome.errorHandled GoErr.csrfMissingSession, locals⟩) ∧
    CsrfConfigDefault.IgnoredMethods = some ["GET", "HEAD", "OPTIONS", "TRACE"] := by
  refine ⟨?_, ?_, rfl⟩
  · intro config adapter c locals s newToken now hskip hsess hig
    simp [csrfNew, hskip, hsess, hig]
  · intro config adapter c locals newToken now hskip hsess
    simp [csrfNew, hskip, hsess]

/-- Witness for the amended C2: a GET with a session skips untouched; a GET
without one is rejected with the missing-session error. -/
theorem C2_witness :
    csrfNew [] (storeAdapter sessA) reqGetApp [(LKey.session, LocalVal.session sessA)]
        (Except.ok "csrf-b") ⟨0⟩ =
      ⟨[], Outcome.next, [(LKey.session, LocalVal.session sessA)]⟩ ∧
    csrfNew [] (storeAdapter sessA) reqGetApp [] (Except.ok "csrf-b") ⟨0⟩ =
      ⟨[Event.errorHandlerCalled (some GoErr.csrfMissingSession)],
        Outcome.errorHandled GoErr.csrfMissingSession, []⟩ :=
  ⟨C2_ignored_methods_after_session_lookup.1 [] (storeAdapter sessA) reqGetApp
      [(LKey.session, LocalVal.session sessA)] sessA (Except.ok "csrf-b") ⟨0⟩
      (by decide) (by decide) (by decide),
   C2_ignored_methods_after_session_lookup.2.1 [] (storeAdapter sessA) reqGetApp []
      (Except.ok "csrf-b") ⟨0⟩ (by decide) (by decide)⟩

/-- A mutating request submitting the CSRF token `"csrf-a"` in the default
header. -/
def reqCsrfA : Request := ⟨"POST", "/app", [], [], [("X-Csrf-Token", "csrf-a")], []⟩

/-- A mutating request submitting the CSRF token `"csrf-b"`. -/
def reqCsrfB : Request := ⟨"POST", "/app", [], [], [("X-Csrf-Token", "csrf-b")], []⟩

/-- A mutating request with no CSRF token header at all. -/
def reqCsrfNone : Request := ⟨"POST", "/app", [], [], [], []⟩

/-- The session after the guard rotated `sessA`'s CSRF record to `"csrf-b"`
at instant 500 (expiry 500 + 30min). -/
def rotatedB : GothSession := { sessA with CsrfToken := ⟨"csrf-b", ⟨1800000000500⟩⟩ }

/-- The session after a second rotation to `"csrf-c"` at instant 700. -/
def rotatedC : GothSession := { sessA with CsrfToken := ⟨"csrf-c", ⟨1800000000700⟩⟩ }

/-- C1 counterexample: re-submitting the previously validated token
`"csrf-a"` after rotation fails through the error handler with
`ErrTokenNotFound` — the very same error value the guard produces when no
token is submitted at all; the code defines no distinct `CsrfTokenInvalid`
error, so the claim's named failure mode is wrong. -/
theorem C1_counterexample_replay_error_is_tokenNotFound :
    csrfNew [] (storeAdapter sessA) reqCsrfA [(LKey.session, LocalVal.session rotatedB)]
        (Except.ok "csrf-c") ⟨600⟩ =
      ⟨[Event.errorHandlerCalled (some GoErr.csrfTokenNotFound)],
        Outcome.errorHandled GoErr.csrfTokenNotFound,
        [(LKey.session, LocalVal.session rotatedB)]⟩ ∧
    csrfNew [] (storeAdapter sessA) reqCsrfNone [(LKey.session, LocalVal.session rotatedB)]
        (Except.ok "csrf-c") ⟨600⟩ =
      ⟨[Event.errorHandlerCalled (some GoErr.csrfTokenNotFound)],
        Outcome.errorHandled GoErr.csrfTokenNotFound,
        [(LKey.session, LocalVal.session rotatedB)]⟩ := by
  decide

/-- C1 (amended): a request that passes CSRF validation has the session's
CSRF sub-record replaced with the freshly generated token and a new expiry,
persisted via the adapter's `UpdateSession`; the previously validated token
then fails on a second submission — with `ErrTokenNotFound`, the guard's
single rejection error — and the freshly rotated token succeeds exactly once
more (its own replay fails the same way). -/
theorem C1_csrf_rotation_single_use
    (config : List CsrfConfig) (adapter : Adapter) (s : GothSession)
    (c1 c2 c3 c4 : Request) (g1 g2 : String) (now1 now2 now3 now4 : Time)
    (hupd : ∀ x, adapter.UpdateSession x = Except.ok x)
    (hskip1 : nextSkip (csrfConfigDefault config).Next c1 = false)
    (hskip2 : nextSkip (csrfConfigDefault config).Next c2 = false)
    (hskip3 : nextSkip (csrfConfigDefault config).Next c3 = false)
    (hskip4 : nextSkip (csrfConfigDefault config).Next c4 = false)
    (hig1 : ((csrfConfigDefault config).ignoredList.any (fun m => m == c1.method)) = false)
    (hig2 : ((csrfConfigDefault config).ignoredList.any (fun m => m == c2.method)) = false)
    (hig3 : ((csrfConfigDefault config).ignoredList.any (fun m => m == c3.method)) = false)
    (hig4 : ((csrfConfigDefault config).ignoredList.any (fun m => m == c4.method)) = false)
    (hex1 : (csrfConfigDefault config).extract c1 = Except.ok s.CsrfToken.Token)
    (hex2 : (csrfConfigDefault config).extract c2 = Except.ok s.CsrfToken.Token)
    (hex3 : (csrfConfigDefault config).extract c3 = Except.ok g1)
    (hex4 : (csrfConfigDefault config).extract c4 = Except.ok g1)
    (hne : (s.CsrfToken.Token == "") = false)
    (hg1ne : (g1 == "") = false)
    (hfresh1 : (g1 == s.CsrfToken.Token) = false)
    (hfresh2 : (g2 == g1) = false)
    (hexp1 : s.CsrfToken.HasExpired now1 = false)
    (hexp2 : GothCsrfToken.HasExpired
      ⟨g1, now1.add (csrfConfigDefault config).IdleTimeout⟩ now2 = false)
    (hexp3 : GothCsrfToken.HasExpired
      ⟨g1, now1.add (csrfConfigDefault config).IdleTimeout⟩ now3 = false)
    (hexp4 : GothCsrfToken.HasExpired
      ⟨g2, now3.add (csrfConfigDefault config).IdleTimeout⟩ now4 = false) :
    csrfNew config adapter c1 [(LKey.session, LocalVal.session s)] (Except.ok g1) now1 =
      ⟨[Event.updateSessionCalled
          { s with CsrfToken := ⟨g1, now1.add (csrfConfigDefault config).IdleTimeout⟩ }],
        Outcome.next,
        [(LKey.csrfToken, LocalVal.csrf ⟨g1, now1.add (csrfConfigDefault config).IdleTimeout⟩),
         (LKey.session, LocalVal.session s)]⟩ ∧
    csrfNew config adapter c2
        [(LKey.session, LocalVal.session
          { s with CsrfToken := ⟨g1, now1.add (csrfConfigDefault config).IdleTimeout⟩ })]
        (Except.ok g2) now2 =
      ⟨[Event.errorHandlerCalled (some GoErr.csrfTokenNotFound)],
        Outcome.errorHandled GoErr.csrfTokenNotFound,
        [(LKey.session, LocalVal.session
          { s with CsrfToken := ⟨g1, now1.add (csrfConfigDefault config).IdleTimeout⟩ })]⟩ ∧
    csrfNew config adapter c3
        [(LKey.session, LocalVal.session
          { s with CsrfToken := ⟨g1, now1.add (csrfConfigDefault config).IdleTimeout⟩ })]
        (Except.ok g2) now3 =
      ⟨[Event.updateSessionCalled
          { s with CsrfToken := ⟨g2, now3.add (csrfConfigDefault config).IdleTimeout⟩ }],
        Outcome.next,
        [(LKey.csrfToken, LocalVal.csrf ⟨g2, now3.add (csrfConfigDefault config).IdleTimeout⟩),
         (LKey.session, LocalVal.session
          { s with CsrfToken := ⟨g1, now1.add (csrfConfigDefault config).IdleTimeout⟩ })]⟩ ∧
    csrfNew config adapter c4
        [(LKey.session, LocalVal.session
          { s with CsrfToken := ⟨g2, now3.add (csrfConfigDefault config).IdleTimeout⟩ })]
        (Except.ok g2) now4 =
      ⟨[Event.errorHandlerCalled (some GoErr.csrfTokenNotFound)],
        Outcome.errorHandled GoErr.csrfTokenNotFound,
        [(LKey.session, LocalVal.session
          { s with CsrfToken := ⟨g2, now3.add (csrfConfigDefault config).IdleTimeout⟩ })]⟩ := by
  refine ⟨?_, ?_, ?_, ?_⟩
  · simp [csrfNew, hskip1, hig1, hex1, hne, hexp1, hupd, SessionFromContext, lookupLocal,
      List.find?, GothCsrfToken.IsValid]
  · simp [csrfNew, hskip2, hig2, hex2, hne, hexp2, hfresh1, SessionFromContext, lookupLocal,
      List.find?, GothCsrfToken.IsValid]
  · simp [csrfNew, hskip3, hig3, hex3, hg1ne, hexp3, hupd, SessionFromContext, lookupLocal,
      List.find?, GothCsrfToken.IsValid]
  · simp [csrfNew, hskip4, hig4, hex4, hg1ne, hexp4, hfresh2, SessionFromContext, lookupLocal,
      List.find?, GothCsrfToken.IsValid]

/-- Witness for the amended C1: token `"csrf-a"` validates once at instant
500, is rotated to `"csrf-b"`, its replay fails; `"csrf-b"` succeeds once at
instant 700 and its own replay fails. -/
theorem C1_witness :
    csrfNew [] (storeAdapter sessA) reqCsrfA [(LKey.session, LocalVal.session sessA)]
        (Except.ok "csrf-b") ⟨500⟩ =
      ⟨[Event.updateSessionCalled rotatedB], Outcome.next,
        [(LKey.csrfToken, LocalVal.csrf ⟨"csrf-b", ⟨1800000000500⟩⟩),
         (LKey.session, LocalVal.session sessA)]⟩ ∧
    csrfNew [] (storeAdapter sessA) reqCsrfA [(LKey.session, LocalVal.session rotatedB)]
        (Except.ok "csrf-c") ⟨600⟩ =
      ⟨[Event.errorHandlerCalled (some GoErr.csrfTokenNotFound)],
        Outcome.errorHandled GoErr.csrfTokenNotFound,
        [(LKey.session, LocalVal.session rotatedB)]⟩ ∧
    csrfNew [] (storeAdapter sessA) reqCsrfB [(LKey.session, LocalVal.session rotatedB)]
        (Except.ok "csrf-c") ⟨700⟩ =
      ⟨[Event.updateSessionCalled rotatedC], Outcome.next,
        [(LKey.csrfToken, LocalVal.csrf ⟨"csrf-c", ⟨1800000000700⟩⟩),
         (LKey.session, LocalVal.session rotatedB)]⟩ ∧
    csrfNew [] (storeAdapter sessA) reqCsrfB [(LKey.session, LocalVal.session rotatedC)]
        (Except.ok "csrf-c") ⟨800⟩ =
      ⟨[Event.errorHandlerCalled (some GoErr.csrfTokenNotFound)],
        Outcome.errorHandled GoErr.csrfTokenNotFound,
        [(LKey.session, LocalVal.session rotatedC)]⟩ :=
  C1_csrf_rotation_single_use [] (storeAdapter sessA) sessA reqCsrfA reqCsrfA reqCsrfB reqCsrfB
    "csrf-b" "csrf-c" ⟨500⟩ ⟨600⟩ ⟨700⟩ ⟨800⟩ (fun _ => rfl)
    (by decide) (by decide) (by decide) (by decide)
    (by decide) (by decide) (by decide) (by decide)
    (by decide) (by decide) (by decide) (by decide)
    (by decide) (by decide) (by decide) (by decide)
    (by decide) (by decide) (by decide) (by decide)

/-- The user fixture returned by a successful provider `CompleteAuth`. -/
def uA : GothUser := ⟨⟨9⟩⟩

/-- A provider that looks up, begins and completes successfully; the begin
intent resolves to a GitHub-shaped authorize URL embedding the state. -/
def provOK : ProviderOps :=
  ⟨fun _ => Except.ok (),
   fun st => Except.ok ("https://github.com/login/oauth/authorize?state=" ++ st),
   Except.ok uA⟩

/-- A begin-auth request for provider `github` carrying no `state` query
parameter. -/
def reqAuthGithub : Request := ⟨"GET", "/auth/github", [], [], [], [("provider", "github")]⟩

/-- A begin-auth request already carrying `state=abc`. -/
def reqAuthWithState : Request :=
  ⟨"GET", "/auth/github", [], [("state", "abc")], [], [("provider", "github")]⟩

/-- The nonce generated for `reqAuthGithub` under the all-zero random draw. -/
def nonce0 : String := stateFromContext reqAuthGithub (fun _ => 0)

/-- C6 counterexample: with no `state` query parameter, the state passed to
the provider and embedded in the 307 redirect is the base64url encoding of
the 64 random characters — an 88-character string, not a 64-character one as
claimed. -/
theorem C6_counterexample_nonce_is_88_chars :
    beginAuthHandlerNew cfgEmpty provOK reqAuthGithub (fun _ => 0) =
      ⟨[Event.providerBeginAuth nonce0],
        Outcome.redirect ("https://github.com/login/oauth/authorize?state=" ++ nonce0) 307, []⟩ ∧
    nonce0.length = 88 ∧ ¬ nonce0.length = 64 := by
  refine ⟨by decide, by decide, by decide⟩

/-- C6 (amended): a `BeginAuth` request with no `state` parameter has 64
random characters drawn from the fixed alphabet, base64url-encoded — an
88-character nonce — passed to the provider, and on success the handler
responds with a 307 redirect to the provider's URL; a request already
carrying a non-empty `state` has that value passed verbatim. -/
theorem C6_beginAuth_nonce_encoding :
    (∀ (cfg : Config) (prov : ProviderOps) (c : Request) (randIdx : Nat → Nat) (url : String),
      nextSkip cfg.Next c = false →
      (c.paramValue "provider" == "") = false →
      prov.lookup (c.paramValue "provider") = Except.ok () →
      prov.beginAuthURL (stateFromContext c randIdx) = Except.ok url →
      beginAuthHandlerNew cfg prov c randIdx =
        ⟨[Event.providerBeginAuth (stateFromContext c randIdx)],
          Outcome.redirect url 307, []⟩) ∧
    (∀ (c : Request) (randIdx : Nat → Nat),
      c.queryValue "state" = "" → (stateFromContext c randIdx).length = 88) ∧
    (∀ (c : Request) (randIdx : Nat → Nat),
      0 < (c.queryValue "state").length → stateFromContext c randIdx = c.queryValue "state") := by
  refine ⟨?_, ?_, ?_⟩
  · intro cfg prov c randIdx url hskip hp hlookup hurl
    simp [beginAuthHandlerNew, hskip, hp, hlookup, hurl]
  · intro c randIdx h
    simp only [stateFromContext, h]
    norm_num
    simp [String.length, base64urlEncode_length, generateRandomString]
  · intro c randIdx h
    simp [stateFromContext, h]

/-- Witness for the amended C6: the concrete no-state request yields the
88-character nonce and the 307 redirect; a request with `state=abc` reuses
it verbatim. -/
theorem C6_witness :
    beginAuthHandlerNew cfgEmpty provOK reqAuthGithub (fun _ => 1) =
      ⟨[Event.providerBeginAuth (stateFromContext reqAuthGithub (fun _ => 1))],
        Outcome.redirect ("https://github.com/login/oauth/authorize?state=" ++
          stateFromContext reqAuthGithub (fun _ => 1)) 307, []⟩ ∧
    (stateFromContext reqAuthGithub (fun _ => 1)).length = 88 ∧
    stateFromContext reqAuthWithState (fun _ => 1) = "abc" :=
  ⟨C6_beginAuth_nonce_encoding.1 cfgEmpty provOK reqAuthGithub (fun _ => 1)
      ("https://github.com/login/oauth/authorize?state=" ++
        stateFromContext reqAuthGithub (fun _ => 1))
      (by decide) (by decide) (by decide) rfl,
   C6_beginAuth_nonce_encoding.2.1 reqAuthGithub (fun _ => 1) (by decide),
   C6_beginAuth_nonce_encoding.2.2 reqAuthWithState (fun _ => 1) (by decide)⟩

/-- A provider whose registry lookup fails. -/
def provLookupFail : ProviderOps :=
  ⟨fun _ => Except.error (GoErr.providerFault "unknown provider"),
   fun _ => Except.error (GoErr.providerFault "unknown provider"),
   Except.error (GoErr.providerFault "unknown provider")⟩

/-- A provider whose `CompleteAuth` (code exchange / profile fetch / upsert)
fails. -/
def provCompleteFail : ProviderOps :=
  ⟨fun _ => Except.ok (), fun st => Except.ok st,
   Except.error (GoErr.providerFault "exchange failed")⟩

/-- An adapter whose `CreateSession` fails. -/
def createFailAdapter : Adapter :=
  { storeAdapter sessA with CreateSession := fun _ _ => Except.error (GoErr.ioFault "insert failed") }

/-- A config whose session TTL string does not parse. -/
def cfgBadExpiry : Config := { cfgEmpty with Expiry := "soon" }

/-- A callback request with no provider route parameter. -/
def reqAuthNoProvider : Request := ⟨"GET", "/auth/", [], [], [], []⟩

/-- C8: in `CompleteAuth` every step failure — missing provider name,
provider lookup, provider `CompleteAuth`, expiry parsing, `CreateSession` —
surfaces through the configured error handler, and no cookie is set on any
failure path (in particular a failed `CreateSession` sets no cookie); only on
full success is an HTTP-only cookie set carrying the session token with
`Expires` equal to `now + sessionTTL`, the default TTL string `7h` parsing to
7 hours. -/
theorem C8_completeAuth_failures_and_cookie :
    (∀ (cfg : Config) (prov : ProviderOps) (adapter : Adapter) (c : Request) (now : Time),
      nextSkip cfg.Next c = false →
      c.paramValue "provider" = "" →
      completeAuthHandlerNew cfg prov adapter c now =
        ⟨[Event.errorHandlerCalled (some GoErr.missingProviderName)],
          Outcome.errorHandled GoErr.missingProviderName, []⟩) ∧
    (∀ (cfg : Config) (prov : ProviderOps) (adapter : Adapter) (c : Request) (now : Time)
        (e : GoErr),
      nextSkip cfg.Next c = false →
      (c.paramValue "provider" == "") = false →
      prov.lookup (c.paramValue "provider") = Except.error e →
      completeAuthHandlerNew cfg prov adapter c now =
        ⟨[Event.errorHandlerCalled (some e)], Outcome.errorHandled e, []⟩) ∧
    (∀ (cfg : Config) (prov : ProviderOps) (adapter : Adapter) (c : Request) (now : Time)
        (e : GoErr),
      nextSkip cfg.Next c = false →
      (c.paramValue "provider" == "") = false →
      prov.lookup (c.paramValue "provider") = Except.ok () →
      prov.completeAuth = Except.error e →
      completeAuthHandlerNew cfg prov adapter c now =
        ⟨[Event.errorHandlerCalled (some e)], Outcome.errorHandled e, []⟩) ∧
    (∀ (cfg : Config) (prov : ProviderOps) (adapter : Adapter) (c : Request) (now : Time)
        (u : GothUser) (e : GoErr),
      nextSkip cfg.Next c = false →
      (c.paramValue "provider" == "") = false →
      prov.lookup (c.paramValue "provider") = Except.ok () →
      prov.completeAuth = Except.ok u →
      parseDuration cfg.Expiry = Except.error e →
      completeAuthHandlerNew cfg prov adapter c now =
        ⟨[Event.errorHandlerCalled (some e)], Outcome.errorHandled e, []⟩) ∧
    (∀ (cfg : Config) (prov : ProviderOps) (adapter : Adapter) (c : Request) (now : Time)
        (u : GothUser) (duration : Int) (e : GoErr),
      nextSkip cfg.Next c = false →
      (c.paramValue "provider" == "") = false →
      prov.lookup (c.paramValue "provider") = Except.ok () →
      prov.completeAuth = Except.ok u →
      parseDuration cfg.Expiry = Except.ok duration →
      adapter.CreateSession u.ID (now.add duration) = Except.error e →
      completeAuthHandlerNew cfg prov adapter c now =
        ⟨[Event.createSessionCalled u.ID (now.add duration), Event.errorHandlerCalled (some e)],
          Outcome.errorHandled e, []⟩) ∧
    (∀ (cfg : Config) (prov : ProviderOps) (adapter : Adapter) (c : Request) (now : Time)
        (u : GothUser) (duration : Int) (session : GothSession),
      nextSkip cfg.Next c = false →
      (c.paramValue "provider" == "") = false →
      prov.lookup (c.paramValue "provider") = Except.ok () →
      prov.completeAuth = Except.ok u →
      parseDuration cfg.Expiry = Except.ok duration →
      adapter.CreateSession u.ID (now.add duration) = Except.ok session →
      completeAuthHandlerNew cfg prov adapter c now =
        ⟨[Event.createSessionCalled u.ID (now.add duration),
          Event.cookieSet ⟨cfg.CookieName, session.SessionToken, true, cookieSameSiteLaxMode,
            now.add duration, "/"⟩],
          Outcome.filtered, []⟩) ∧
    parseDuration ConfigDefault.Expiry = Except.ok 25200000000000 := by
  refine ⟨?_, ?_, ?_, ?_, ?_, ?_, by decide⟩
  · intro cfg prov adapter c now hskip hp
    simp [completeAuthHandlerNew, hskip, hp]
  · intro cfg prov adapter c now e hskip hp hlookup
    simp [completeAuthHandlerNew, hskip, hp, hlookup]
  · intro cfg prov adapter c now e hskip hp hlookup hcomplete
    simp [completeAuthHandlerNew, hskip, hp, hlookup, hcomplete]
  · intro cfg prov adapter c now u e hskip hp hlookup hcomplete hdur
    simp [completeAuthHandlerNew, hskip, hp, hlookup, hcomplete, hdur]
  · intro cfg prov adapter c now u duration e hskip hp hlookup hcomplete hdur hcreate
    simp [completeAuthHandlerNew, hskip, hp, hlookup, hcomplete, hdur, hcreate]
  · intro cfg prov adapter c now u duration session hskip hp hlookup hcomplete hdur hcreate
    simp [completeAuthHandlerNew, hskip, hp, hlookup, hcomplete, hdur, hcreate]

/-- Witness for C8: each failure mode at a concrete request reaches the error
handler without a cookie, and the concrete success run sets the HTTP-only
cookie expiring at `now + 7h`. -/
theorem C8_witness :
    completeAuthHandlerNew (configDefault []) provOK (storeAdapter sessA) reqAuthNoProvider ⟨0⟩ =
      ⟨[Event.errorHandlerCalled (some GoErr.missingProviderName)],
        Outcome.errorHandled GoErr.missingProviderName, []⟩ ∧
    completeAuthHandlerNew (configDefault []) provLookupFail (storeAdapter sessA) reqAuthGithub
        ⟨0⟩ =
      ⟨[Event.errorHandlerCalled (some (GoErr.providerFault "unknown provider"))],
        Outcome.errorHandled (GoErr.providerFault "unknown provider"), []⟩ ∧
    completeAuthHandlerNew (configDefault []) provCompleteFail (storeAdapter sessA) reqAuthGithub
        ⟨0⟩ =
      ⟨[Event.errorHandlerCalled (some (GoErr.providerFault "exchange failed"))],
        Outcome.errorHandled (GoErr.providerFault "exchange failed"), []⟩ ∧
    completeAuthHandlerNew cfgBadExpiry provOK (storeAdapter sessA) reqAuthGithub ⟨0⟩ =
      ⟨[Event.errorHandlerCalled (some (GoErr.parseDurationErr "soon"))],
        Outcome.errorHandled (GoErr.parseDurationErr "soon"), []⟩ ∧
    completeAuthHandlerNew (configDefault []) provOK createFailAdapter reqAuthGithub ⟨0⟩ =
      ⟨[Event.createSessionCalled ⟨9⟩ ⟨25200000000000⟩,
          Event.errorHandlerCalled (some (GoErr.ioFault "insert failed"))],
        Outcome.errorHandled (GoErr.ioFault "insert failed"), []⟩ ∧
    completeAuthHandlerNew (configDefault []) provOK (storeAdapter sessA) reqAuthGithub ⟨0⟩ =
      ⟨[Event.createSessionCalled ⟨9⟩ ⟨25200000000000⟩,
          Event.cookieSet ⟨"fiber_goth.session", "session-token-1", true, cookieSameSiteLaxMode,
            ⟨25200000000000⟩, "/"⟩],
        Outcome.filtered, []⟩ :=
  ⟨C8_completeAuth_failures_and_cookie.1 (configDefault []) provOK (storeAdapter sessA)
      reqAuthNoProvider ⟨0⟩ (by decide) (by decide),
   C8_completeAuth_failures_and_cookie.2.1 (configDefault []) provLookupFail (storeAdapter sessA)
      reqAuthGithub ⟨0⟩ (GoErr.providerFault "unknown provider") (by decide) (by decide)
      (by decide),
   C8_completeAuth_failures_and_cookie.2.2.1 (configDefault []) provCompleteFail
      (storeAdapter sessA) reqAuthGithub ⟨0⟩ (GoErr.providerFault "exchange failed") (by decide)
      (by decide) (by decide) (by decide),
   C8_completeAuth_failures_and_cookie.2.2.2.1 cfgBadExpiry provOK (storeAdapter sessA)
      reqAuthGithub ⟨0⟩ uA (GoErr.parseDurationErr "soon") (by decide) (by decide) (by decide)
      (by decide) (by decide),
   C8_completeAuth_failures_and_cookie.2.2.2.2.1 (configDefault []) provOK createFailAdapter
      reqAuthGithub ⟨0⟩ uA 25200000000000 (GoErr.ioFault "insert failed") (by decide) (by decide)
      (by decide) (by decide) (by decide) (by decide),
   C8_completeAuth_failures_and_cookie.2.2.2.2.2.1 (configDefault []) provOK (storeAdapter sessA)
      reqAuthGithub ⟨0⟩ uA 25200000000000
      ⟨⟨1⟩, ⟨25200000000000⟩, "session-token-1", ⟨9⟩, ⟨"", ⟨0⟩⟩⟩ (by decide) (by decide)
      (by decide) (by decide) (by decide) (by decide)⟩

end FiberGoth
